import Mathlib

/-!
Shallow embedding of `src/video_core/vulkan_common/vulkan_surface.cpp`
(yuzu): the `MetalLayer` adapter and `Vulkan::CreateSurface`.

Native effects are made explicit:
  * the Objective-C runtime is an environment record (`MetalEnv`) giving the
    results of `objc_getClass` and of the messages the adapter sends;
  * the view object behind `render_surface` is a `ViewState` record mutated
    by the `setWantsLayer:` and `setLayer:` messages;
  * the Vulkan instance dispatch table is a record of optional entry points
    (`none` models `vkGetInstanceProcAddr` returning null), each present
    entry point given with the `VkResult` it returns and the value it writes
    to the output handle;
  * every invocation of a native surface-creation entry point is recorded,
    with the creation-parameter record passed to it, in a trace
    (`List NativeEvent`) returned alongside the result.

Conditional compilation (`#ifdef _WIN32`, `__APPLE__`, the X11/Wayland
block) is modelled by a `BuildTarget` parameter: a branch guarded by a
preprocessor conditional exists in the embedding only when the target
matches, exactly as the preprocessor leaves it in or out of the build.
-/

set_option autoImplicit false

namespace VulkanSurface

/-- VK_SUCCESS. -/
def VK_SUCCESS : Int := 0

/-- VK_ERROR_INITIALIZATION_FAILED, the VkResult carried by every
`vk::Exception` thrown in `CreateSurface`. -/
def VK_ERROR_INITIALIZATION_FAILED : Int := -3

/-- VK_STRUCTURE_TYPE_WIN32_SURFACE_CREATE_INFO_KHR. -/
def VK_STRUCTURE_TYPE_WIN32_SURFACE_CREATE_INFO_KHR : Nat := 1000009000

/-- VK_STRUCTURE_TYPE_METAL_SURFACE_CREATE_INFO_EXT. -/
def VK_STRUCTURE_TYPE_METAL_SURFACE_CREATE_INFO_EXT : Nat := 1000217000

/-- VK_STRUCTURE_TYPE_XLIB_SURFACE_CREATE_INFO_KHR. -/
def VK_STRUCTURE_TYPE_XLIB_SURFACE_CREATE_INFO_KHR : Nat := 1000004000

/-- VK_STRUCTURE_TYPE_WAYLAND_SURFACE_CREATE_INFO_KHR. -/
def VK_STRUCTURE_TYPE_WAYLAND_SURFACE_CREATE_INFO_KHR : Nat := 1000006000

/-- The build target, standing for the preprocessor state: `_WIN32`,
`__APPLE__`, or neither (the X11/Wayland block). -/
inductive BuildTarget where
  | windows
  | apple
  | other
  deriving DecidableEq

/-- `Core::Frontend::WindowSystemType`: the discriminant of the window
descriptor. The constructors used by `CreateSurface` are `windows`, `macOs`,
`x11` and `wayland`; `unsupported` stands for any further discriminant
(the header is outside this translation unit), which matches no branch. -/
inductive WindowSystemType where
  | windows
  | macOs
  | x11
  | wayland
  | unsupported
  deriving DecidableEq

/-- `EmuWindow::WindowSystemInfo` as read by `CreateSurface`: the
discriminant and two opaque handles, modelled as machine words where 0 is
the null pointer / null handle. -/
structure WindowInfo where
  type : WindowSystemType
  render_surface : Nat
  display_connection : Nat
  deriving DecidableEq

/-- The behaviour of one resolved native surface-creation entry point on
this call: the `VkResult` it returns and the value the output handle holds
after the call (the callee writes through the out pointer). -/
structure CreateCall where
  result : Int
  surface : Nat
  deriving DecidableEq

/-- The instance dispatch table `dld`, restricted to the four entry points
`CreateSurface` resolves by name: `none` models `vkGetInstanceProcAddr`
returning null for that name. Resolution happens fresh on every call; the
table itself is read-only. -/
structure InstanceDispatch where
  vkCreateWin32SurfaceKHR : Option CreateCall
  vkCreateMetalSurfaceEXT : Option CreateCall
  vkCreateXlibSurfaceKHR : Option CreateCall
  vkCreateWaylandSurfaceKHR : Option CreateCall
  deriving DecidableEq

/-- The `vk::Instance` argument: its raw handle and its dispatch table. -/
structure VkInstance where
  handle : Nat
  dld : InstanceDispatch
  deriving DecidableEq

/-- The four per-platform builder families of `CreateSurface`. -/
inductive Family where
  | win32
  | metal
  | x11
  | wayland
  deriving DecidableEq

/-- Which builder families the preprocessor leaves in the build for a
target: `#ifdef _WIN32` keeps Win32 only, `#if defined(__APPLE__)` keeps
Metal only, and `#if !defined(_WIN32) && !defined(__APPLE__)` keeps both
the Xlib and the Wayland builders. -/
def compiledFamilies : BuildTarget → List Family
  | .windows => [.win32]
  | .apple => [.metal]
  | .other => [.x11, .wayland]

/-- The builder family whose guard a discriminant satisfies
(`window_info.type == WindowSystemType::...` in each branch);
`none` for a discriminant no branch tests for. -/
def familyOf : WindowSystemType → Option Family
  | .windows => some .win32
  | .macOs => some .metal
  | .x11 => some .x11
  | .wayland => some .wayland
  | .unsupported => none

/-- Look an entry point up in the dispatch table by builder family,
mirroring the `vkGetInstanceProcAddr` call of each builder. -/
def InstanceDispatch.lookup (dld : InstanceDispatch) : Family → Option CreateCall
  | .win32 => dld.vkCreateWin32SurfaceKHR
  | .metal => dld.vkCreateMetalSurfaceEXT
  | .x11 => dld.vkCreateXlibSurfaceKHR
  | .wayland => dld.vkCreateWaylandSurfaceKHR

/-- `VkWin32SurfaceCreateInfoKHR` as populated by the Win32 builder. -/
structure VkWin32SurfaceCreateInfoKHR where
  sType : Nat
  pNext : Nat
  flags : Nat
  hinstance : Nat
  hwnd : Nat
  deriving DecidableEq

/-- `VkMetalSurfaceCreateInfoEXT` as populated by the Apple builder. -/
structure VkMetalSurfaceCreateInfoEXT where
  sType : Nat
  pNext : Nat
  flags : Nat
  pLayer : Nat
  deriving DecidableEq

/-- `VkXlibSurfaceCreateInfoKHR` as populated by the X11 builder. -/
structure VkXlibSurfaceCreateInfoKHR where
  sType : Nat
  pNext : Nat
  flags : Nat
  dpy : Nat
  window : Nat
  deriving DecidableEq

/-- `VkWaylandSurfaceCreateInfoKHR` as populated by the Wayland builder. -/
structure VkWaylandSurfaceCreateInfoKHR where
  sType : Nat
  pNext : Nat
  flags : Nat
  display : Nat
  surface : Nat
  deriving DecidableEq

/-- One invocation of a native surface-creation entry point, with the
creation-parameter record passed to it. -/
inductive NativeEvent where
  | createWin32 (ci : VkWin32SurfaceCreateInfoKHR)
  | createMetal (ci : VkMetalSurfaceCreateInfoEXT)
  | createXlib (ci : VkXlibSurfaceCreateInfoKHR)
  | createWayland (ci : VkWaylandSurfaceCreateInfoKHR)
  deriving DecidableEq

/-- The builder family a native invocation belongs to. -/
def NativeEvent.family : NativeEvent → Family
  | .createWin32 _ => .win32
  | .createMetal _ => .metal
  | .createXlib _ => .x11
  | .createWayland _ => .wayland

/-- The layer-backing state of the NSView object behind `render_surface`:
the two properties the adapter writes via `setWantsLayer:` and
`setLayer:`. -/
structure ViewState where
  wantsLayer : Bool
  layer : Nat
  deriving DecidableEq

/-- The Objective-C runtime as `MetalLayer` consults it:
`classCAMetalLayer` is the result of `objc_getClass("CAMetalLayer")`
(0 when the class is absent); `layerFromClass` is the object the
`[CAMetalLayer layer]` message returns (0 when it returns nil);
`mainScreen` is `[NSScreen mainScreen]` (0 when nil);
`backingScaleFactor` is the scale property of a non-nil screen object.
The scale is a `Rat`: the adapter only copies it, never computes with it. -/
structure MetalEnv where
  classCAMetalLayer : Nat
  layerFromClass : Nat
  mainScreen : Nat
  backingScaleFactor : Nat → Rat

/-- The `[screen backingScaleFactor]` message send: a message to nil
(screen = 0) returns the zero value, the Objective-C nil-messaging rule. -/
def objcBackingScale (env : MetalEnv) (screen : Nat) : Rat :=
  if screen = 0 then 0 else env.backingScaleFactor screen

/-- Everything `MetalLayer` produces: the returned layer pointer (0 for
nullptr), the view state after the call, and the contents-scale value set
on the layer (`none` when execution never reached `setContentsScale:`). -/
structure MetalResult where
  layer : Nat
  view : ViewState
  contentsScale : Option Rat
  deriving DecidableEq

/-- The anonymous-namespace `MetalLayer` adapter (Apple build only):
resolve the `CAMetalLayer` class, bail with nullptr when absent; send
`layer` to it, bail with nullptr when that returns nil; otherwise send
`setWantsLayer:YES` and `setLayer:` to the view, read the main-screen
backing scale factor and set it as the layer contents scale, and return
the layer. -/
def MetalLayer (env : MetalEnv) (view : ViewState) : MetalResult :=
  if env.classCAMetalLayer = 0 then
    { layer := 0, view := view, contentsScale := none }
  else
    let layer := env.layerFromClass
    if layer = 0 then
      { layer := 0, view := view, contentsScale := none }
    else
      let view1 : ViewState := { view with wantsLayer := true, layer := layer }
      let factor := objcBackingScale env env.mainScreen
      { layer := layer, view := view1, contentsScale := some factor }

/-- A created surface: `vk::SurfaceKHR(unsafe_surface, *instance, dld)`
binds the raw handle to the instance and its dispatch table. -/
structure SurfaceKHR where
  handle : Nat
  instanceHandle : Nat
  dld : InstanceDispatch
  deriving DecidableEq

/-- The trailing `if (!unsafe_surface) throw ...; return vk::SurfaceKHR(...)`
of `CreateSurface`, given the value of `unsafe_surface` on arrival and the
trace accumulated so far. -/
def finishSurface (inst : VkInstance) (unsafe_surface : Nat)
    (trace : List NativeEvent) : Except Int SurfaceKHR × List NativeEvent :=
  if unsafe_surface = 0 then
    (Except.error VK_ERROR_INITIALIZATION_FAILED, trace)
  else
    (Except.ok { handle := unsafe_surface, instanceHandle := inst.handle,
                 dld := inst.dld }, trace)

/-- The shape shared by the four builder blocks:
`if (!fp || fp(*instance, &ci, nullptr, &unsafe_surface) != VK_SUCCESS)
throw vk::Exception(VK_ERROR_INITIALIZATION_FAILED);` followed by the
trailing null check. When the entry point is absent the native call is
short-circuited (no event); when present the invocation is recorded and
its result checked. -/
def runBuilder (inst : VkInstance) (fp : Option CreateCall) (ev : NativeEvent) :
    Except Int SurfaceKHR × List NativeEvent :=
  match fp with
  | none => (Except.error VK_ERROR_INITIALIZATION_FAILED, [])
  | some call =>
    if call.result ≠ VK_SUCCESS then
      (Except.error VK_ERROR_INITIALIZATION_FAILED, [ev])
    else
      finishSurface inst call.surface [ev]

/-- `Vulkan::CreateSurface`. `unsafe_surface` starts null; each compiled
branch whose discriminant guard holds builds its creation-info record,
resolves its entry point and invokes it; the trailing check throws when
`unsafe_surface` is still null (in particular when no branch matched).
The thrown `vk::Exception` always carries
`VK_ERROR_INITIALIZATION_FAILED`. The branch guards are mutually
exclusive (one discriminant equality each), so at most one branch runs.
`objc` and `view` model the Objective-C runtime and the NSView behind
`window_info.render_surface`, consulted only by the Apple branch. -/
def CreateSurface (target : BuildTarget) (objc : MetalEnv) (inst : VkInstance)
    (window_info : WindowInfo) (view : ViewState) :
    Except Int SurfaceKHR × List NativeEvent :=
  if target = .windows ∧ window_info.type = .windows then
    runBuilder inst inst.dld.vkCreateWin32SurfaceKHR
      (NativeEvent.createWin32
        { sType := VK_STRUCTURE_TYPE_WIN32_SURFACE_CREATE_INFO_KHR,
          pNext := 0, flags := 0, hinstance := 0,
          hwnd := window_info.render_surface })
  else if target = .apple ∧ window_info.type = .macOs then
    runBuilder inst inst.dld.vkCreateMetalSurfaceEXT
      (NativeEvent.createMetal
        { sType := VK_STRUCTURE_TYPE_METAL_SURFACE_CREATE_INFO_EXT,
          pNext := 0, flags := 0,
          pLayer := (MetalLayer objc view).layer })
  else if target = .other ∧ window_info.type = .x11 then
    runBuilder inst inst.dld.vkCreateXlibSurfaceKHR
      (NativeEvent.createXlib
        { sType := VK_STRUCTURE_TYPE_XLIB_SURFACE_CREATE_INFO_KHR,
          pNext := 0, flags := 0,
          dpy := window_info.display_connection,
          window := window_info.render_surface })
  else if target = .other ∧ window_info.type = .wayland then
    runBuilder inst inst.dld.vkCreateWaylandSurfaceKHR
      (NativeEvent.createWayland
        { sType := VK_STRUCTURE_TYPE_WAYLAND_SURFACE_CREATE_INFO_KHR,
          pNext := 0, flags := 0,
          display := window_info.display_connection,
          surface := window_info.render_surface })
  else
    (Except.error VK_ERROR_INITIALIZATION_FAILED, [])

/-- Whether some compiled branch of `CreateSurface` on this target tests
for this discriminant: the disjunction of the four branch guards. -/
def supportedOn : BuildTarget → WindowSystemType → Bool
  | .windows, .windows => true
  | .apple, .macOs => true
  | .other, .x11 => true
  | .other, .wayland => true
  | _, _ => false

/-- The creation-parameter record the spec prescribes for each
discriminant (spec section 4.2, platform-specific structure-field
semantics), written from the spec wording so it can be compared against
the records the code builds: desktop-native is tag, reserved 0, instance
handle 0, native window handle; Apple is tag, reserved 0, pointer to the
compositor layer obtained from the adapter; X11 is tag, reserved 0,
display connection pointer, window identifier; Wayland is tag, reserved 0,
display connection pointer, compositor surface pointer. -/
def specExpectedEvent (objc : MetalEnv) (w : WindowInfo) (view : ViewState) :
    Option NativeEvent :=
  match w.type with
  | .windows =>
    some (NativeEvent.createWin32
      { sType := VK_STRUCTURE_TYPE_WIN32_SURFACE_CREATE_INFO_KHR,
        pNext := 0, flags := 0, hinstance := 0, hwnd := w.render_surface })
  | .macOs =>
    some (NativeEvent.createMetal
      { sType := VK_STRUCTURE_TYPE_METAL_SURFACE_CREATE_INFO_EXT,
        pNext := 0, flags := 0, pLayer := (MetalLayer objc view).layer })
  | .x11 =>
    some (NativeEvent.createXlib
      { sType := VK_STRUCTURE_TYPE_XLIB_SURFACE_CREATE_INFO_KHR,
        pNext := 0, flags := 0, dpy := w.display_connection,
        window := w.render_surface })
  | .wayland =>
    some (NativeEvent.createWayland
      { sType := VK_STRUCTURE_TYPE_WAYLAND_SURFACE_CREATE_INFO_KHR,
        pNext := 0, flags := 0, display := w.display_connection,
        surface := w.render_surface })
  | .unsupported => none

/-! ## Concrete sample inputs, used by witnesses and counterexamples -/

/-- Objective-C runtime where everything succeeds; the main screen reports
a backing scale factor of 2. -/
def objcOk : MetalEnv :=
  { classCAMetalLayer := 1, layerFromClass := 2, mainScreen := 3,
    backingScaleFactor := fun _ => 2 }

/-- Objective-C runtime where the CAMetalLayer class is absent. -/
def objcNoClass : MetalEnv :=
  { classCAMetalLayer := 0, layerFromClass := 2, mainScreen := 3,
    backingScaleFactor := fun _ => 2 }

/-- Objective-C runtime where `[CAMetalLayer layer]` returns nil. -/
def objcNoLayer : MetalEnv :=
  { classCAMetalLayer := 1, layerFromClass := 0, mainScreen := 3,
    backingScaleFactor := fun _ => 2 }

/-- Objective-C runtime where `[NSScreen mainScreen]` returns nil. -/
def objcNilScreen : MetalEnv :=
  { classCAMetalLayer := 1, layerFromClass := 2, mainScreen := 0,
    backingScaleFactor := fun _ => 2 }

/-- A view that is not yet layer-backed. -/
def view0 : ViewState := { wantsLayer := false, layer := 0 }

/-- A native call that succeeds and writes handle 42. -/
def callOk : CreateCall := { result := 0, surface := 42 }

/-- A native call that returns VK_ERROR_INITIALIZATION_FAILED. -/
def callFail : CreateCall := { result := -3, surface := 0 }

/-- An instance exposing all four entry points, each succeeding. -/
def instFull : VkInstance :=
  { handle := 5,
    dld := { vkCreateWin32SurfaceKHR := some callOk,
             vkCreateMetalSurfaceEXT := some callOk,
             vkCreateXlibSurfaceKHR := some callOk,
             vkCreateWaylandSurfaceKHR := some callOk } }

/-- An instance exposing none of the four entry points. -/
def instEmpty : VkInstance :=
  { handle := 5,
    dld := { vkCreateWin32SurfaceKHR := none,
             vkCreateMetalSurfaceEXT := none,
             vkCreateXlibSurfaceKHR := none,
             vkCreateWaylandSurfaceKHR := none } }

/-- An instance whose only entry point is a failing Metal call. -/
def instMetalFail : VkInstance :=
  { handle := 5,
    dld := { vkCreateWin32SurfaceKHR := none,
             vkCreateMetalSurfaceEXT := some callFail,
             vkCreateXlibSurfaceKHR := none,
             vkCreateWaylandSurfaceKHR := none } }

/-- A Windows window descriptor. -/
def wWin : WindowInfo :=
  { type := .windows, render_surface := 7, display_connection := 0 }

/-- A macOS window descriptor. -/
def wMac : WindowInfo :=
  { type := .macOs, render_surface := 7, display_connection := 0 }

/-- An X11 window descriptor. -/
def wX11 : WindowInfo :=
  { type := .x11, render_surface := 7, display_connection := 9 }

/-- A Wayland window descriptor. -/
def wWayland : WindowInfo :=
  { type := .wayland, render_surface := 7, display_connection := 9 }

/-- A descriptor with a discriminant no branch tests for. -/
def wUnsupported : WindowInfo :=
  { type := .unsupported, render_surface := 7, display_connection := 9 }

/-! ## Helper lemmas -/

/-- A builder run produces either the umbrella error or a surface with a
non-null handle bound to the instance. -/
theorem runBuilder_total (inst : VkInstance) (fp : Option CreateCall)
    (ev : NativeEvent) :
    (runBuilder inst fp ev).1 = Except.error VK_ERROR_INITIALIZATION_FAILED ∨
    ∃ s, (runBuilder inst fp ev).1 = Except.ok s ∧ s.handle ≠ 0 := by
  rcases fp with _ | call
  · exact Or.inl rfl
  · by_cases hr : call.result ≠ VK_SUCCESS
    · simp [runBuilder, hr]
    · by_cases hs : call.surface = 0
      · simp [runBuilder, finishSurface, hr, hs]
      · refine Or.inr ⟨SurfaceKHR.mk call.surface inst.handle inst.dld, ?_, hs⟩
        simp [runBuilder, finishSurface, hr, hs]

/-- A builder run records at most one native invocation, and only the one
it was given. -/
theorem runBuilder_trace (inst : VkInstance) (fp : Option CreateCall)
    (ev : NativeEvent) :
    (runBuilder inst fp ev).2.length ≤ 1 ∧
    ∀ e ∈ (runBuilder inst fp ev).2, e = ev := by
  rcases fp with _ | call
  · simp [runBuilder]
  · by_cases hr : call.result ≠ VK_SUCCESS
    · simp [runBuilder, hr]
    · by_cases hs : call.surface = 0 <;> simp [runBuilder, finishSurface, hr, hs]

/-- An absent entry point short-circuits: no native invocation, error. -/
theorem runBuilder_none (inst : VkInstance) (ev : NativeEvent) :
    runBuilder inst none ev =
      (Except.error VK_ERROR_INITIALIZATION_FAILED, []) := rfl

/-- A present entry point is invoked exactly once. -/
theorem runBuilder_some (inst : VkInstance) (call : CreateCall)
    (ev : NativeEvent) : (runBuilder inst (some call) ev).2 = [ev] := by
  by_cases hr : call.result ≠ VK_SUCCESS
  · simp [runBuilder, hr]
  · by_cases hs : call.surface = 0 <;> simp [runBuilder, finishSurface, hr, hs]

/-- Absent entry point, or native call not reporting success, yields the
umbrella error. -/
theorem runBuilder_error (inst : VkInstance) (fp : Option CreateCall)
    (ev : NativeEvent)
    (h : fp = none ∨ ∃ c, fp = some c ∧ c.result ≠ VK_SUCCESS) :
    (runBuilder inst fp ev).1 = Except.error VK_ERROR_INITIALIZATION_FAILED := by
  rcases h with h | ⟨c, hc, hr⟩
  · subst h; rfl
  · subst hc; simp [runBuilder, hr]

/-- On a discriminant no compiled branch tests for, `CreateSurface` falls
through every guard: the trailing null check throws and the trace is
empty. -/
theorem unsupported_run (target : BuildTarget) (objc : MetalEnv)
    (inst : VkInstance) (w : WindowInfo) (view : ViewState)
    (h : supportedOn target w.type = false) :
    CreateSurface target objc inst w view =
      (Except.error VK_ERROR_INITIALIZATION_FAILED, []) := by
  obtain ⟨t, rs, dc⟩ := w
  cases target <;> cases t <;> simp_all [supportedOn, CreateSurface]

/-- Master case split on `CreateSurface`: either no branch matched and the
result is the trailing-check error with an empty trace, or exactly one
branch matched — the one whose family the discriminant selects, compiled
for this target — and the whole call is that builder run on the entry
point looked up for that family, with the creation-parameter record the
spec prescribes. -/
theorem createSurface_cases (target : BuildTarget) (objc : MetalEnv)
    (inst : VkInstance) (w : WindowInfo) (view : ViewState) :
    CreateSurface target objc inst w view =
      (Except.error VK_ERROR_INITIALIZATION_FAILED, []) ∨
    ∃ f ev, familyOf w.type = some f ∧ f ∈ compiledFamilies target ∧
      specExpectedEvent objc w view = some ev ∧
      CreateSurface target objc inst w view =
        runBuilder inst (inst.dld.lookup f) ev ∧
      NativeEvent.family ev = f := by
  obtain ⟨t, rs, dc⟩ := w
  cases target <;> cases t <;>
    first
      | exact Or.inl rfl
      | exact Or.inr ⟨_, _, rfl, by decide, rfl, rfl, rfl⟩

/-! ## Claims -/

/-- Claim C1, counterexample: with the compositor-layer class absent the
adapter returns a null layer, yet the Apple builder still invokes the
resolved `vkCreateMetalSurfaceEXT` entry point, passing the null layer in
the creation-parameter record — the claim says the entry point is not
invoked when the adapter returned null. -/
theorem metalLayer_null_still_invoked :
    (MetalLayer objcNoClass view0).layer = 0 ∧
    (CreateSurface BuildTarget.apple objcNoClass instMetalFail wMac view0).2 =
      [NativeEvent.createMetal
        { sType := VK_STRUCTURE_TYPE_METAL_SURFACE_CREATE_INFO_EXT,
          pNext := 0, flags := 0, pLayer := 0 }] ∧
    (CreateSurface BuildTarget.apple objcNoClass instMetalFail wMac view0).1 =
      Except.error VK_ERROR_INITIALIZATION_FAILED :=
  ⟨rfl, rfl, rfl⟩

/-- Claim C1, amended: on the Apple path, when the adapter returns a null
layer the builder does not short-circuit; it builds the creation record
with a null layer pointer and, when the entry point resolves, still
invokes it once with that record. Failure is reported when the entry point
is absent or when the invoked native call does not report success. -/
theorem createSurface_apple_null_layer (objc : MetalEnv) (inst : VkInstance)
    (w : WindowInfo) (view : ViewState)
    (ht : w.type = WindowSystemType.macOs)
    (hl : (MetalLayer objc view).layer = 0) :
    (inst.dld.vkCreateMetalSurfaceEXT = none →
      CreateSurface BuildTarget.apple objc inst w view =
        (Except.error VK_ERROR_INITIALIZATION_FAILED, [])) ∧
    (∀ c, inst.dld.vkCreateMetalSurfaceEXT = some c →
      (CreateSurface BuildTarget.apple objc inst w view).2 =
        [NativeEvent.createMetal
          { sType := VK_STRUCTURE_TYPE_METAL_SURFACE_CREATE_INFO_EXT,
            pNext := 0, flags := 0, pLayer := 0 }] ∧
      (c.result ≠ VK_SUCCESS →
        (CreateSurface BuildTarget.apple objc inst w view).1 =
          Except.error VK_ERROR_INITIALIZATION_FAILED)) := by
  obtain ⟨t, rs, dc⟩ := w
  cases ht
  have hred : CreateSurface BuildTarget.apple objc inst
      ⟨WindowSystemType.macOs, rs, dc⟩ view =
      runBuilder inst inst.dld.vkCreateMetalSurfaceEXT
        (NativeEvent.createMetal
          { sType := VK_STRUCTURE_TYPE_METAL_SURFACE_CREATE_INFO_EXT,
            pNext := 0, flags := 0,
            pLayer := (MetalLayer objc view).layer }) := rfl
  rw [hl] at hred
  refine ⟨?_, ?_⟩
  · intro hn
    rw [hred, hn, runBuilder_none]
  · intro c hc
    refine ⟨?_, ?_⟩
    · rw [hred, hc]
      exact runBuilder_some inst c _
    · intro hr
      rw [hred, hc]
      simp [runBuilder, hr]

/-- Claim C1, witness for the amended theorem: layer instantiation fails,
the entry point is absent, and the builder reports the umbrella failure
with no native invocation. -/
theorem createSurface_apple_null_layer_witness :
    wMac.type = WindowSystemType.macOs ∧
    (MetalLayer objcNoLayer view0).layer = 0 ∧
    ((instEmpty.dld.vkCreateMetalSurfaceEXT = none →
      CreateSurface BuildTarget.apple objcNoLayer instEmpty wMac view0 =
        (Except.error VK_ERROR_INITIALIZATION_FAILED, [])) ∧
    (∀ c, instEmpty.dld.vkCreateMetalSurfaceEXT = some c →
      (CreateSurface BuildTarget.apple objcNoLayer instEmpty wMac view0).2 =
        [NativeEvent.createMetal
          { sType := VK_STRUCTURE_TYPE_METAL_SURFACE_CREATE_INFO_EXT,
            pNext := 0, flags := 0, pLayer := 0 }] ∧
      (c.result ≠ VK_SUCCESS →
        (CreateSurface BuildTarget.apple objcNoLayer instEmpty wMac view0).1 =
          Except.error VK_ERROR_INITIALIZATION_FAILED))) :=
  ⟨rfl, rfl, createSurface_apple_null_layer objcNoLayer instEmpty wMac view0 rfl rfl⟩

/-- Claim C2: for every target, environment, instance and descriptor,
`CreateSurface` either fails with the single umbrella error
VK_ERROR_INITIALIZATION_FAILED or returns a surface wrapping a non-null
raw handle; no null or sentinel surface and no other error value ever
reaches the caller. -/
theorem createSurface_ok_or_single_error (target : BuildTarget)
    (objc : MetalEnv) (inst : VkInstance) (w : WindowInfo) (view : ViewState) :
    (CreateSurface target objc inst w view).1 =
      Except.error VK_ERROR_INITIALIZATION_FAILED ∨
    ∃ s, (CreateSurface target objc inst w view).1 = Except.ok s ∧
      s.handle ≠ 0 := by
  rcases createSurface_cases target objc inst w view with h | ⟨f, ev, _, _, _, heq, _⟩
  · rw [h]
    exact Or.inl rfl
  · rw [heq]
    exact runBuilder_total inst (inst.dld.lookup f) ev

/-- Claim C2, witness: a successful Wayland run returns handle 42. -/
theorem createSurface_ok_or_single_error_witness :
    (CreateSurface BuildTarget.other objcOk instFull wWayland view0).1 =
      Except.error VK_ERROR_INITIALIZATION_FAILED ∨
    ∃ s, (CreateSurface BuildTarget.other objcOk instFull wWayland view0).1 =
      Except.ok s ∧ s.handle ≠ 0 :=
  createSurface_ok_or_single_error BuildTarget.other objcOk instFull wWayland view0

/-- Claim C3: a discriminant matching no builder compiled for the target
(the Unsupported discriminant included) makes `CreateSurface` fail with
the umbrella error while the native-call trace stays empty: no native
surface-creation call is invoked and the raw handle stays null. -/
theorem createSurface_unsupported_no_native_call (target : BuildTarget)
    (objc : MetalEnv) (inst : VkInstance) (w : WindowInfo) (view : ViewState)
    (h : supportedOn target w.type = false) :
    (CreateSurface target objc inst w view).1 =
      Except.error VK_ERROR_INITIALIZATION_FAILED ∧
    (CreateSurface target objc inst w view).2 = [] := by
  rw [unsupported_run target objc inst w view h]
  exact ⟨rfl, rfl⟩

/-- Claim C3, witness: the Unsupported discriminant on the X11/Wayland
target fails with an empty trace. -/
theorem createSurface_unsupported_no_native_call_witness :
    supportedOn BuildTarget.other wUnsupported.type = false ∧
    (CreateSurface BuildTarget.other objcOk instFull wUnsupported view0).1 =
      Except.error VK_ERROR_INITIALIZATION_FAILED ∧
    (CreateSurface BuildTarget.other objcOk instFull wUnsupported view0).2 = [] :=
  ⟨rfl, createSurface_unsupported_no_native_call BuildTarget.other objcOk
    instFull wUnsupported view0 rfl⟩

/-- Claim C4: when the discriminant selects a compiled builder whose entry
point is absent from the dispatch table, or resolves but returns a
non-success status, `CreateSurface` fails with the umbrella error and
produces no surface; the trace shows no retry and no fallback: at most one
native invocation, and only of the matching family. -/
theorem createSurface_builder_failure (target : BuildTarget) (objc : MetalEnv)
    (inst : VkInstance) (w : WindowInfo) (view : ViewState) (f : Family)
    (hf : familyOf w.type = some f)
    (hcomp : f ∈ compiledFamilies target)
    (hfail : inst.dld.lookup f = none ∨
      ∃ c, inst.dld.lookup f = some c ∧ c.result ≠ VK_SUCCESS) :
    (CreateSurface target objc inst w view).1 =
      Except.error VK_ERROR_INITIALIZATION_FAILED ∧
    (CreateSurface target objc inst w view).2.length ≤ 1 ∧
    ∀ e ∈ (CreateSurface target objc inst w view).2,
      NativeEvent.family e = f := by
  rcases createSurface_cases target objc inst w view with h | ⟨f2, ev, hf2, _, _, heq, hfam⟩
  · rw [h]
    refine ⟨rfl, by simp, by simp⟩
  · have hff : f2 = f := Option.some.inj (hf2.symm.trans hf)
    subst hff
    rw [heq]
    refine ⟨runBuilder_error inst (inst.dld.lookup f2) ev hfail,
      (runBuilder_trace inst (inst.dld.lookup f2) ev).1, ?_⟩
    intro e he
    rw [(runBuilder_trace inst (inst.dld.lookup f2) ev).2 e he]
    exact hfam

/-- Claim C4, witness: the X11 entry point is absent on the X11/Wayland
target; the call fails with an empty (hence at-most-one, matching-family)
trace. -/
theorem createSurface_builder_failure_witness :
    familyOf wX11.type = some Family.x11 ∧
    Family.x11 ∈ compiledFamilies BuildTarget.other ∧
    instEmpty.dld.lookup Family.x11 = none ∧
    ((CreateSurface BuildTarget.other objcOk instEmpty wX11 view0).1 =
      Except.error VK_ERROR_INITIALIZATION_FAILED ∧
    (CreateSurface BuildTarget.other objcOk instEmpty wX11 view0).2.length ≤ 1 ∧
    ∀ e ∈ (CreateSurface BuildTarget.other objcOk instEmpty wX11 view0).2,
      NativeEvent.family e = Family.x11) :=
  ⟨rfl, by decide, rfl, createSurface_builder_failure BuildTarget.other objcOk
    instEmpty wX11 view0 Family.x11 rfl (by decide) (Or.inl rfl)⟩

/-- Claim C5, counterexample: on the target that is neither Windows nor
Apple, two builder families — Xlib and Wayland — are compiled in, not
exactly one as the claim states. -/
theorem compiledFamilies_other_not_single :
    (compiledFamilies BuildTarget.other).length = 2 ∧
    ¬(compiledFamilies BuildTarget.other).length = 1 ∧
    Family.x11 ∈ compiledFamilies BuildTarget.other ∧
    Family.wayland ∈ compiledFamilies BuildTarget.other := by
  decide

/-- Claim C5, amended: the dispatcher selects the builder solely from the
discriminant and at most one builder executes per call — every recorded
native invocation belongs to the family the discriminant selects and that
family is compiled for the target; but a target compiles one family
(Windows, Apple) or two (X11 and Wayland together), not always exactly
one. -/
theorem createSurface_single_dispatch (target : BuildTarget) (objc : MetalEnv)
    (inst : VkInstance) (w : WindowInfo) (view : ViewState) :
    (CreateSurface target objc inst w view).2.length ≤ 1 ∧
    ∀ e ∈ (CreateSurface target objc inst w view).2,
      familyOf w.type = some (NativeEvent.family e) ∧
      NativeEvent.family e ∈ compiledFamilies target := by
  rcases createSurface_cases target objc inst w view with h | ⟨f, ev, hf, hcomp, _, heq, hfam⟩
  · rw [h]
    exact ⟨by simp, by simp⟩
  · rw [heq]
    refine ⟨(runBuilder_trace inst (inst.dld.lookup f) ev).1, ?_⟩
    intro e he
    rw [(runBuilder_trace inst (inst.dld.lookup f) ev).2 e he, hfam]
    exact ⟨hf, hcomp⟩

/-- Claim C5, witness for the amended theorem: a successful X11 run has a
one-event trace of the X11 family. -/
theorem createSurface_single_dispatch_witness :
    (CreateSurface BuildTarget.other objcOk instFull wX11 view0).2.length ≤ 1 ∧
    ∀ e ∈ (CreateSurface BuildTarget.other objcOk instFull wX11 view0).2,
      familyOf wX11.type = some (NativeEvent.family e) ∧
      NativeEvent.family e ∈ compiledFamilies BuildTarget.other :=
  createSurface_single_dispatch BuildTarget.other objcOk instFull wX11 view0

/-- Claim C6: whenever a builder invokes its native entry point, the
creation-parameter record it passes is exactly the record the spec
prescribes for that discriminant: structure tag first, reserved and flags
fields zero, then the descriptor handles in the specified order. -/
theorem createSurface_creation_records (target : BuildTarget)
    (objc : MetalEnv) (inst : VkInstance) (w : WindowInfo) (view : ViewState) :
    (CreateSurface target objc inst w view).2 = [] ∨
    ∃ ev, specExpectedEvent objc w view = some ev ∧
      (CreateSurface target objc inst w view).2 = [ev] := by
  rcases createSurface_cases target objc inst w view with h | ⟨f, ev, _, _, hs, heq, _⟩
  · rw [h]
    exact Or.inl rfl
  · rw [heq]
    rcases hfp : inst.dld.lookup f with _ | c
    · exact Or.inl rfl
    · exact Or.inr ⟨ev, hs, runBuilder_some inst c ev⟩

/-- Claim C6, witness: the Wayland builder passes exactly the record the
spec prescribes. -/
theorem createSurface_creation_records_witness :
    (CreateSurface BuildTarget.other objcNilScreen instFull wWayland view0).2 = [] ∨
    ∃ ev, specExpectedEvent objcNilScreen wWayland view0 = some ev ∧
      (CreateSurface BuildTarget.other objcNilScreen instFull wWayland view0).2 = [ev] :=
  createSurface_creation_records BuildTarget.other objcNilScreen instFull
    wWayland view0

/-- Claim C7: when the class resolves, the layer instantiates and the main
screen is non-nil, the adapter returns a non-null layer whose contents
scale is exactly the backing scale factor of the main screen. -/
theorem metalLayer_propagates_scale (env : MetalEnv) (view : ViewState)
    (hc : env.classCAMetalLayer ≠ 0) (hl : env.layerFromClass ≠ 0)
    (hs : env.mainScreen ≠ 0) :
    (MetalLayer env view).layer ≠ 0 ∧
    (MetalLayer env view).contentsScale =
      some (env.backingScaleFactor env.mainScreen) := by
  simp [MetalLayer, objcBackingScale, hc, hl, hs]

/-- Claim C7, witness: a screen scale factor of 2 yields a layer whose
contents scale equals 2. -/
theorem metalLayer_propagates_scale_witness :
    objcOk.classCAMetalLayer ≠ 0 ∧ objcOk.layerFromClass ≠ 0 ∧
    objcOk.mainScreen ≠ 0 ∧
    objcOk.backingScaleFactor objcOk.mainScreen = 2 ∧
    (MetalLayer objcOk view0).layer ≠ 0 ∧
    (MetalLayer objcOk view0).contentsScale = some 2 := by
  have h := metalLayer_propagates_scale objcOk view0 (by decide) (by decide)
    (by decide)
  exact ⟨by decide, by decide, by decide, rfl, h.1, h.2.trans rfl⟩

/-- Claim C8: two calls of `CreateSurface` on the same unsupported
descriptor are indistinguishable — the embedding threads no state between
calls, mirroring the function having no static or global mutable state —
both fail with the same umbrella error and the two runs together
accumulate no native-call side effects. -/
theorem createSurface_failure_idempotent (target : BuildTarget)
    (objc : MetalEnv) (inst : VkInstance) (w : WindowInfo) (view : ViewState)
    (h : supportedOn target w.type = false) :
    CreateSurface target objc inst w view =
      CreateSurface target objc inst w view ∧
    (CreateSurface target objc inst w view).1 =
      Except.error VK_ERROR_INITIALIZATION_FAILED ∧
    (CreateSurface target objc inst w view).2 ++
      (CreateSurface target objc inst w view).2 = [] := by
  rw [unsupported_run target objc inst w view h]
  exact ⟨rfl, rfl, rfl⟩

/-- Claim C8, witness: the Unsupported discriminant on the Windows target,
run twice. -/
theorem createSurface_failure_idempotent_witness :
    supportedOn BuildTarget.windows wUnsupported.type = false ∧
    (CreateSurface BuildTarget.windows objcOk instFull wUnsupported view0 =
      CreateSurface BuildTarget.windows objcOk instFull wUnsupported view0 ∧
    (CreateSurface BuildTarget.windows objcOk instFull wUnsupported view0).1 =
      Except.error VK_ERROR_INITIALIZATION_FAILED ∧
    (CreateSurface BuildTarget.windows objcOk instFull wUnsupported view0).2 ++
      (CreateSurface BuildTarget.windows objcOk instFull wUnsupported view0).2 = []) :=
  ⟨rfl, createSurface_failure_idempotent BuildTarget.windows objcOk instFull
    wUnsupported view0 rfl⟩

/-- Claim C9: whenever the adapter fails (returns a null layer), it has
sent no message to the view: the layer-backing state of the view is
exactly what it was before the call. -/
theorem metalLayer_failure_preserves_view (env : MetalEnv) (view : ViewState)
    (h : (MetalLayer env view).layer = 0) :
    (MetalLayer env view).view = view := by
  by_cases hc : env.classCAMetalLayer = 0
  · simp [MetalLayer, hc]
  · by_cases hl : env.layerFromClass = 0
    · simp [MetalLayer, hc, hl]
    · have hlay : (MetalLayer env view).layer = env.layerFromClass := by
        simp [MetalLayer, hc, hl]
      rw [hlay] at h
      exact absurd h hl

/-- Claim C9, witness: both failure modes — class absent, and layer
instantiation returning nil — leave the view untouched. -/
theorem metalLayer_failure_preserves_view_witness :
    (MetalLayer objcNoClass view0).layer = 0 ∧
    (MetalLayer objcNoClass view0).view = view0 ∧
    (MetalLayer objcNoLayer view0).layer = 0 ∧
    (MetalLayer objcNoLayer view0).view = view0 :=
  ⟨rfl, metalLayer_failure_preserves_view objcNoClass view0 rfl, rfl,
    metalLayer_failure_preserves_view objcNoLayer view0 rfl⟩

/-- Claim C10: once the class resolves and the layer instantiates, the
adapter returns that layer unconditionally; the screen lookup is never
checked, so a nil main screen still yields the layer, with contents scale
set to the zero value a message to nil produces. -/
theorem metalLayer_success_ignores_screen (env : MetalEnv) (view : ViewState)
    (hc : env.classCAMetalLayer ≠ 0) (hl : env.layerFromClass ≠ 0) :
    (MetalLayer env view).layer = env.layerFromClass ∧
    (MetalLayer env view).contentsScale =
      some (objcBackingScale env env.mainScreen) ∧
    (env.mainScreen = 0 → (MetalLayer env view).contentsScale = some 0) := by
  refine ⟨by simp [MetalLayer, hc, hl], by simp [MetalLayer, hc, hl], ?_⟩
  intro hs
  simp [MetalLayer, objcBackingScale, hc, hl, hs]

/-- Claim C10, witness: with a nil main screen the adapter still returns
the layer, and the contents scale is zero. -/
theorem metalLayer_success_ignores_screen_witness :
    objcNilScreen.classCAMetalLayer ≠ 0 ∧ objcNilScreen.layerFromClass ≠ 0 ∧
    objcNilScreen.mainScreen = 0 ∧
    (MetalLayer objcNilScreen view0).layer = objcNilScreen.layerFromClass ∧
    (MetalLayer objcNilScreen view0).contentsScale = some 0 := by
  have h := metalLayer_success_ignores_screen objcNilScreen view0 (by decide)
    (by decide)
  exact ⟨by decide, by decide, rfl, h.1, h.2.2 rfl⟩

end VulkanSurface
